import Mathlib

/-!
Verification of the PyArduinoFlash STK500v1/STK500v2 protocol stack
(`arduinobootloader.py`) and of the page-oriented flash pipeline of the
companion script (`arduinoflash.py`), against its natural-language
specification.

The serial line is modelled as the list of bytes it will deliver
(`Serial.stream`); `read n` removes up to `n` bytes from its front, which
corresponds to a timed read that returns short only when the line stays
silent.  Bytes written by the host accumulate in `Serial.written`.  An
unopened port is `Option.none`, matching `self.device = None` in the source.
-/

/-- Serial transport model: a pending input stream, the bytes written so
far, and the current read timeout in milliseconds. -/
structure Serial where
  timeoutMs : Nat
  stream : List Nat
  written : List Nat
  deriving Repr, DecidableEq

/-- Model of `device.read(n)`: take up to `n` bytes from the input stream. -/
def Serial.read (d : Serial) (n : Nat) : List Nat × Serial :=
  (d.stream.take n, { d with stream := d.stream.drop n })

/-- Model of `device.write(msg)`: append the bytes to the transcript. -/
def Serial.write (d : Serial) (msg : List Nat) : Serial :=
  { d with written := d.written ++ msg }

/-- Python exceptions that the modelled code can raise. -/
inductive PyErr where
  | attrError
  deriving Repr, DecidableEq

/-- Session state shared by both programmers (fields of `ArduinoBootloader`).
The programmer name is kept as its raw byte list; the source decodes it as
UTF-8 into a string. -/
structure Session where
  hwVersion : Nat
  swMajor : Nat
  swMinor : Nat
  cpuName : String
  cpuPageSize : Nat
  cpuPages : Nat
  programmerName : List Nat
  deriving Repr, DecidableEq

/-- Session state right after `ArduinoBootloader.__init__`. -/
def initSession : Session :=
  { hwVersion := 0, swMajor := 0, swMinor := 0, cpuName := "",
    cpuPageSize := 0, cpuPages := 0, programmerName := [] }

/-- Registry `AVR_ATMEL_CPUS`: signature key, cpu name, flash page size in
bytes, flash page count, exactly as in the source dictionary. -/
def AVR_ATMEL_CPUS : List (Nat × String × Nat × Nat) :=
  [(0x1E9608, "ATmega640", 128 * 2, 1024),
   (0x1E9802, "ATmega2561", 128 * 2, 1024),
   (0x1E9801, "ATmega2560", 128 * 2, 1024),
   (0x1E9703, "ATmega1280", 128 * 2, 512),
   (0x1E9705, "ATmega1284P", 128 * 2, 512),
   (0x1E9704, "ATmega1281", 128 * 2, 512),
   (0x1E9782, "AT90USB1287", 128 * 2, 512),
   (0x1E9702, "ATmega128", 128 * 2, 512),
   (0x1E9602, "ATmega64", 128 * 2, 256),
   (0x1E9502, "ATmega32", 64 * 2, 256),
   (0x1E9403, "ATmega16", 64 * 2, 128),
   (0x1E9307, "ATmega8", 32 * 2, 128),
   (0x1E930A, "ATmega88", 32 * 2, 128),
   (0x1E9406, "ATmega168", 64 * 2, 256),
   (0x1E950F, "ATmega328P", 64 * 2, 256),
   (0x1E9514, "ATmega328", 64 * 2, 256),
   (0x1E9404, "ATmega162", 64 * 2, 128),
   (0x1E9402, "ATmega163", 64 * 2, 128),
   (0x1E9405, "ATmega169", 64 * 2, 128),
   (0x1E9306, "ATmega8515", 32 * 2, 128),
   (0x1E9308, "ATmega8535", 32 * 2, 128)]

/-- Lowercase hexadecimal rendering of `n`, zero-padded to at least six
digits: the Python format specifier used in `_is_cpu_signature`. -/
def hex06 (n : Nat) : String :=
  let ds := Nat.toDigits 16 n
  String.mk (List.replicate (6 - ds.length) '0' ++ ds)

/-- Model of `ArduinoBootloader._is_cpu_signature`: dictionary hit stores
the tabulated descriptor and returns `true`; a miss stores the formatted
signature as the name, zeroes both sizes and returns `false`. -/
def isCpuSignature (signature : Nat) (sess : Session) : Bool × Session :=
  match AVR_ATMEL_CPUS.find? (fun e => e.1 == signature) with
  | some e =>
      (true, { sess with cpuName := e.2.1, cpuPageSize := e.2.2.1,
                         cpuPages := e.2.2.2 })
  | none =>
      (false, { sess with cpuName := "signature: " ++ hex06 signature,
                          cpuPageSize := 0, cpuPages := 0 })

/-! ## STK500v1 programmer (`ArduinoBootloader.Stk500v1`) -/

/-- Combined state of the v1 programmer: the (possibly unopened) serial
device, the shared session fields, and the last `self._answer`. -/
structure V1State where
  device : Option Serial
  sess : Session
  answer : List Nat
  deriving Repr, DecidableEq

/-- Set the serial read timeout (`self._ab.device.timeout = ...`), a no-op
on an absent device; `v1GetSync` raises before reaching this helper when
the device is absent. -/
def setTimeout (ms : Nat) (st : V1State) : V1State :=
  { st with device := st.device.map (fun d => { d with timeoutMs := ms }) }

/-- Model of `Stk500v1._cmd_request_no_len`: fail when the port is not
open, else write the command, read up to `answerLen` bytes, and accept any
answer of at least two bytes delimited by `RESP_STK_IN_SYNC = 0x14` and
`RESP_STK_OK = 0x10`. -/
def cmdRequestNoLen (msg : List Nat) (answerLen : Nat) (st : V1State) :
    Bool × V1State :=
  match st.device with
  | none => (false, st)
  | some d =>
      let d1 := d.write msg
      let r := d1.read answerLen
      let st1 : V1State := { st with device := some r.2, answer := r.1 }
      if 2 ≤ r.1.length ∧ r.1.headD 0 = 0x14 ∧ r.1.getLastD 0 = 0x10 then
        (true, st1)
      else (false, st1)

/-- Model of `Stk500v1._cmd_request`: as above but additionally requires
the answer length to match exactly. -/
def cmdRequest (msg : List Nat) (answerLen : Nat) (st : V1State) :
    Bool × V1State :=
  let r := cmdRequestNoLen msg answerLen st
  if r.1 then (r.2.answer.length == answerLen, r.2) else (false, r.2)

/-- Sync command bytes `b"0 "`. -/
def syncMsg : List Nat := [0x30, 0x20]

/-- The retry loop of `Stk500v1.get_sync`; the source runs it with
`range(1, 5)`, i.e. four iterations.  On the first accepted reply the read
timeout is restored to one second. -/
def getSyncLoop : Nat → V1State → Bool × V1State
  | 0, st => (false, st)
  | n + 1, st =>
      let r := cmdRequest syncMsg 2 st
      if r.1 then (true, setTimeout 1000 r.2) else getSyncLoop n r.2

/-- Model of `Stk500v1.get_sync`.  The first statement of the source sets
`self._ab.device.timeout`, which raises `AttributeError` when the device
was never opened. -/
def v1GetSync (st : V1State) : Except PyErr (Bool × V1State) :=
  match st.device with
  | none => .error .attrError
  | some _ => .ok (getSyncLoop 4 (setTimeout 500 st))

/-- Model of `Stk500v1._set_address`: flash addresses are halved to word
addresses (`int(address / 2)`, which is floor division for the address
range in use), EEPROM addresses pass through; the 16-bit address is sent
little-endian after `ord('U')` and before the `0x20` terminator. -/
def setAddressCmd (address : Nat) (flash : Bool) : List Nat :=
  let a := if flash then address / 2 else address
  [0x55, a &&& 0xFF, (a >>> 8) &&& 0xFF, 0x20]

/-- Full `_set_address` exchange. -/
def setAddress (address : Nat) (flash : Bool) (st : V1State) :
    Bool × V1State :=
  cmdRequest (setAddressCmd address flash) 2 st

/-- Sign-on portion of `Stk500v1.board_request`: `b"1 "` with up to seven
reply bytes and no exact length check; the bytes strictly between the two
sentinels become the programmer name. -/
def signOnRequest (st : V1State) : Bool × V1State :=
  let r := cmdRequestNoLen [0x31, 0x20] 7 st
  if r.1 then
    let name := (r.2.answer.dropLast).drop 1
    (true, { r.2 with sess := { r.2.sess with programmerName := name } })
  else (false, r.2)

/-- Model of `Stk500v1.board_request`.  Note the source stores the reply of
the `0x81` (software major) query into `self._ab._hw_version` again and
never writes `_sw_major`. -/
def v1BoardRequest (st : V1State) : Bool × V1State :=
  let r1 := cmdRequest [0x41, 0x80, 0x20] 3 st
  if !r1.1 then (false, r1.2) else
  let st1 := { r1.2 with sess := { r1.2.sess with hwVersion := r1.2.answer.getD 1 0 } }
  let r2 := cmdRequest [0x41, 0x81, 0x20] 3 st1
  if !r2.1 then (false, r2.2) else
  let st2 := { r2.2 with sess := { r2.2.sess with hwVersion := r2.2.answer.getD 1 0 } }
  let r3 := cmdRequest [0x41, 0x82, 0x20] 3 st2
  if !r3.1 then (false, r3.2) else
  let st3 := { r3.2 with sess := { r3.2.sess with swMinor := r3.2.answer.getD 1 0 } }
  signOnRequest st3

/-- Model of `Stk500v1.cpu_signature` (`b"u "`, five answer bytes). -/
def v1CpuSignature (st : V1State) : Bool × V1State :=
  let r := cmdRequest [0x75, 0x20] 5 st
  if r.1 then
    let signature := ((r.2.answer.getD 1 0) <<< 16) |||
      ((r.2.answer.getD 2 0) <<< 8) ||| r.2.answer.getD 3 0
    let c := isCpuSignature signature r.2.sess
    (c.1, { r.2 with sess := c.2 })
  else (false, r.2)

/-- Model of `Stk500v1.write_memory`. -/
def v1WriteMemory (buffer : List Nat) (address : Nat) (flash : Bool)
    (st : V1State) : Bool × V1State :=
  let r := setAddress address flash st
  if r.1 then
    let buffLen := buffer.length
    let cmd := [0x64, (buffLen >>> 8) &&& 0xFF, buffLen &&& 0xFF,
                if flash then 0x46 else 0x45] ++ buffer ++ [0x20]
    cmdRequest cmd 2 r.2
  else (false, r.2)

/-- Model of `Stk500v1.read_memory`: the answer starts with
`RESP_STK_IN_SYNC` and ends with `RESP_STK_OK`; the `count` bytes in
between are returned. -/
def v1ReadMemory (address count : Nat) (flash : Bool) (st : V1State) :
    Option (List Nat) × V1State :=
  let r := setAddress address flash st
  if r.1 then
    let cmd := [0x74, (count >>> 8) &&& 0xFF, count &&& 0xFF,
                if flash then 0x46 else 0x45, 0x20]
    let r2 := cmdRequest cmd (count + 2) r.2
    if r2.1 then (some ((r2.2.answer.drop 1).take count), r2.2)
    else (none, r2.2)
  else (none, r.2)

/-- Model of `Stk500v1.leave_bootloader` (`b"Q "`). -/
def v1LeaveBootloader (st : V1State) : Bool × V1State :=
  cmdRequest [0x51, 0x20] 2 st

/-! ## STK500v2 programmer (`ArduinoBootloader.Stk500v2`) -/

/-- Combined state of the v2 programmer. -/
structure V2State where
  device : Option Serial
  sess : Session
  answer : List Nat
  sequenceNumber : Nat
  deriving Repr, DecidableEq

/-- Model of `Stk500v2._inc_sequence_numb`: an 8-bit counter that wraps to
zero after `0xFF`. -/
def incSequenceNumb (s : Nat) : Nat :=
  if s + 1 > 0xFF then 0 else s + 1

/-- Sequence number carried by the n-th outbound frame of a fresh session
(the counter starts at 0 and is incremented before every send). -/
def seqAfterFrames : Nat → Nat
  | 0 => 0
  | n + 1 => incSequenceNumb (seqAfterFrames n)

/-- Frame built by `Stk500v2._send_command`: a five-byte header, the
command id, the optional body, then the XOR checksum over everything that
precedes it. -/
def v2Frame (seq cmd : Nat) (data : Option (List Nat)) : List Nat :=
  let dataLen := match data with | none => 1 | some l => l.length + 1
  let buff := [0x1B, seq, (dataLen >>> 8) &&& 0xFF, dataLen &&& 0xFF, 0x0E, cmd]
    ++ (match data with | none => [] | some l => l)
  buff ++ [buff.foldl Nat.xor 0]

/-- Model of `Stk500v2._send_command`: fail fast when the port is not open,
otherwise increment the sequence number and write the frame. -/
def sendCommand (cmd : Nat) (data : Option (List Nat)) (st : V2State) :
    Bool × V2State :=
  match st.device with
  | none => (false, st)
  | some d =>
      let seq := incSequenceNumb st.sequenceNumber
      (true, { st with device := some (d.write (v2Frame seq cmd data)),
                       sequenceNumber := seq })

/-- Scan loop of `Stk500v2._read_headear` with an explicit iteration count;
the source runs `range(1, 10)`, i.e. nine read attempts.  A byte that is
not `MESSAGE_START = 0x1B` is discarded; after `MESSAGE_START` the
four-byte trailer must carry `TOKEN = 0x0E` and the expected sequence
number, otherwise the scan continues. -/
def readHeadearAux (seq : Nat) : Nat → Serial → Option (List Nat) × Serial
  | 0, d => (none, d)
  | fuel + 1, d =>
      let r := d.read 1
      if 1 ≤ r.1.length ∧ r.1.headD 0 = 0x1B then
        let rh := r.2.read 4
        if rh.1.length = 4 ∧ rh.1.getD 3 0 = 0x0E ∧ seq = rh.1.getD 0 0 then
          (some rh.1, rh.2)
        else readHeadearAux seq fuel rh.2
      else readHeadearAux seq fuel r.2

/-- Model of `Stk500v2._read_headear` (nine scan iterations). -/
def readHeadear (seq : Nat) (d : Serial) : Option (List Nat) × Serial :=
  readHeadearAux seq 9 d

/-- Model of `Stk500v2._recv_answer`.  The unreachable `none` device branch
exists only to make the function total: every caller in the source invokes
it after `_send_command` succeeded, which requires an open device. -/
def recvAnswer (cmd : Nat) (st : V2State) : Bool × V2State :=
  match st.device with
  | none => (false, st)
  | some d =>
      match readHeadear st.sequenceNumber d with
      | (none, d1) => (false, { st with device := some d1 })
      | (some head, d1) =>
          let lenData := (((head.getD 1 0) <<< 8) ||| head.getD 2 0) + 1
          if 3 ≤ lenData then
            let ra := d1.read lenData
            if ra.1.length = lenData ∧ ra.1.getD 0 0 = cmd ∧ ra.1.getD 1 0 = 0 then
              let answChk := ra.1.getLastD 0
              let ansd := ra.1.dropLast
              let chk := (head ++ ansd).foldl Nat.xor 0x1B
              (chk == answChk,
               { st with device := some ra.2, answer := ansd.drop 2 })
            else (false, { st with device := some ra.2, answer := ra.1 })
          else (false, { st with device := some d1 })

/-- Model of `Stk500v2.get_sync` (`CMD_SIGN_ON = 0x01`); on success the
first answer byte (the name length) is dropped and the rest becomes the
programmer name. -/
def v2GetSync (st : V2State) : Bool × V2State :=
  let r := sendCommand 0x01 none st
  if r.1 then
    let r2 := recvAnswer 0x01 r.2
    if r2.1 then
      let name := r2.2.answer.drop 1
      (true, { r2.2 with sess := { r2.2.sess with programmerName := name },
                         answer := name })
    else (false, r2.2)
  else (false, r.2)

/-- Model of `Stk500v2._get_params` (`CMD_GET_PARAMETER = 0x03`). -/
def getParams (option : List Nat) (st : V2State) : Bool × V2State :=
  let r := sendCommand 0x03 (some option) st
  if r.1 then recvAnswer 0x03 r.2 else (false, r.2)

/-- Model of `Stk500v2.board_request`.  As in v1, the reply of the software
major query (`OPT_SW_MAJOR = 0x91`) is stored into `_hw_version` and
`_sw_major` is never written. -/
def v2BoardRequest (st : V2State) : Bool × V2State :=
  let r1 := getParams [0x90] st
  if !r1.1 then (false, r1.2) else
  let st1 := { r1.2 with sess := { r1.2.sess with hwVersion := r1.2.answer.getD 0 0 } }
  let r2 := getParams [0x91] st1
  if !r2.1 then (false, r2.2) else
  let st2 := { r2.2 with sess := { r2.2.sess with hwVersion := r2.2.answer.getD 0 0 } }
  let r3 := getParams [0x92] st2
  if !r3.1 then (false, r3.2) else
  (true, { r3.2 with sess := { r3.2.sess with swMinor := r3.2.answer.getD 0 0 } })

/-- Model of `Stk500v2._get_signature` (`CMD_SPI_MULTI = 0x1D`). -/
def getSignature (index : Nat) (st : V2State) : Bool × V2State :=
  let msg := [0, 0, 0, 0x30, 0, index]
  let r := sendCommand 0x1D (some msg) st
  if r.1 then recvAnswer 0x1D r.2 else (false, r.2)

/-- Model of `Stk500v2.cpu_signature`: three `SPI_MULTI` exchanges, the
signature byte sitting at index 3 of each stripped answer. -/
def v2CpuSignature (st : V2State) : Bool × V2State :=
  let r1 := getSignature 0 st
  if !r1.1 then (false, r1.2) else
  let s1 := (r1.2.answer.getD 3 0) <<< 16
  let r2 := getSignature 1 r1.2
  if !r2.1 then (false, r2.2) else
  let s2 := s1 ||| ((r2.2.answer.getD 3 0) <<< 8)
  let r3 := getSignature 2 r2.2
  if !r3.1 then (false, r3.2) else
  let s3 := s2 ||| r3.2.answer.getD 3 0
  let c := isCpuSignature s3 r3.2.sess
  (c.1, { r3.2 with sess := c.2 })

/-- Message body built by `Stk500v2._load_address`: the flash byte address
is halved to a word address and sent big-endian with bit `0x80` forced on
the most significant byte. -/
def loadAddressMsg (address : Nat) (flash : Bool) : List Nat :=
  let a := if flash then address / 2 else address
  [((a >>> 24) &&& 0xFF) ||| 0x80, (a >>> 16) &&& 0xFF,
   (a >>> 8) &&& 0xFF, a &&& 0xFF]

/-- Full `_load_address` exchange (`CMD_LOAD_ADDRESS = 0x06`). -/
def loadAddress (address : Nat) (flash : Bool) (st : V2State) :
    Bool × V2State :=
  let r := sendCommand 0x06 (some (loadAddressMsg address flash)) st
  if r.1 then recvAnswer 0x06 r.2 else (false, r.2)

/-- Model of `Stk500v2.write_memory` (`CMD_PROGRAM_FLASH_ISP = 0x13`): a
nine-byte prefix whose first two bytes hold the length, then the data. -/
def v2WriteMemory (buffer : List Nat) (address : Nat) (flash : Bool)
    (st : V2State) : Bool × V2State :=
  let r := loadAddress address flash st
  if r.1 then
    let buffLen := buffer.length
    let msg := [(buffLen >>> 8) &&& 0xFF, buffLen &&& 0xFF,
                0, 0, 0, 0, 0, 0, 0] ++ buffer
    let r2 := sendCommand 0x13 (some msg) r.2
    if r2.1 then recvAnswer 0x13 r2.2 else (false, r2.2)
  else (false, r.2)

/-- Model of `Stk500v2.read_memory` (`CMD_READ_FLASH_ISP = 0x14`): the data
must end with `STATUS_CMD_OK`, which is stripped before returning.  The
default 1 of `getLastD` keeps an empty answer (where the source's
`self._answer[-1]` would raise) on the failure path. -/
def v2ReadMemory (address count : Nat) (flash : Bool) (st : V2State) :
    Option (List Nat) × V2State :=
  let r := loadAddress address flash st
  if r.1 then
    let msg := [(count >>> 8) &&& 0xFF, count &&& 0xFF, 0]
    let r2 := sendCommand 0x14 (some msg) r.2
    if r2.1 then
      let r3 := recvAnswer 0x14 r2.2
      if r3.1 then
        if r3.2.answer.getLastD 1 = 0 then
          (some r3.2.answer.dropLast,
           { r3.2 with answer := r3.2.answer.dropLast })
        else (none, r3.2)
      else (none, r3.2)
    else (none, r2.2)
  else (none, r.2)

/-- Model of `Stk500v2.leave_bootloader` (`CMD_LEAVE_PROGMODE_ISP = 0x11`,
three zero body bytes). -/
def v2LeaveBootloader (st : V2State) : Bool × V2State :=
  let r := sendCommand 0x11 (some [0, 0, 0]) st
  if r.1 then recvAnswer 0x11 r.2 else (false, r.2)

/-! ## Flash pipeline of `arduinoflash.py` -/

/-- Model of `IntelHex.tobinarray(start, size)`: the collaborator is
specified to zero-fill absent bytes, so an image is a total byte map. -/
def tobinarray (image : Nat → Nat) (start size : Nat) : List Nat :=
  (List.range size).map (fun i => image (start + i))

/-- Iteration of Python `range(0, stop, step)` with explicit fuel; for
`step ≥ 1` at most `stop` iterations can occur. -/
def pyRangeAux (stop step : Nat) : Nat → Nat → List Nat
  | 0, _ => []
  | fuel + 1, addr =>
      if addr < stop then addr :: pyRangeAux stop step fuel (addr + step)
      else []

/-- Python `range(0, stop, step)` for a positive step (the script would
raise `ValueError` on a zero step, which never happens because flashing is
blocked when the page size is zero). -/
def pyRange (stop step : Nat) : List Nat :=
  pyRangeAux stop step stop 0

/-- Write loop of the update pipeline: one `write_memory` call per page
address, each carrying the page-sized slice of the image. -/
def writeCalls (image : Nat → Nat) (maxAddr pageSize : Nat) :
    List (Nat × List Nat) :=
  (pyRange maxAddr pageSize).map
    (fun address => (address, tobinarray image address pageSize))

/-- Verify loop of the update pipeline over a simulated target memory:
returns the page addresses actually read and the first mismatching page
address, if any (the script exits with a verification error there). -/
def verifyRun (image target : Nat → Nat) (pageSize : Nat) :
    List Nat → List Nat × Option Nat
  | [] => ([], none)
  | address :: rest =>
      let readBuffer := tobinarray target address pageSize
      if readBuffer = tobinarray image address pageSize then
        let r := verifyRun image target pageSize rest
        (address :: r.1, r.2)
      else ([address], some address)

/-! ## Helper lemmas -/

/-- Masking with `0xFF` is reduction modulo 256. -/
theorem and255 (n : Nat) : n &&& 255 = n % 256 := by
  have h := Nat.and_pow_two_sub_one_eq_mod n 8
  norm_num at h
  exact h

/-- Appending the XOR of a byte list to itself zeroes the total XOR. -/
theorem xorFoldAppendSelf (l : List Nat) :
    (l ++ [l.foldl Nat.xor 0]).foldl Nat.xor 0 = 0 := by
  rw [List.foldl_append]
  exact Nat.xor_self _

/-- Setting the high bit on a seven-bit value is plain addition. -/
theorem or128 : ∀ x : Nat, x < 128 → x ||| 128 = x + 128 := by decide

/-- The sequence counter of a fresh v2 session after `n` outbound frames. -/
theorem seqAfterFrames_mod (n : Nat) : seqAfterFrames n = n % 256 := by
  induction n with
  | zero => rfl
  | succ k ih =>
      unfold seqAfterFrames incSequenceNumb
      rw [ih]
      split <;> omega

/-! ## Claim theorems -/

/-- Claim C1: for every v2 command id and optional body, `_send_command`
emits exactly the frame `MESSAGE_START, seq, len_hi, len_lo, TOKEN, cmd`
followed by the body and the XOR checksum of every preceding byte; the
16-bit length field holds `1 + |body|` (whenever that fits in 16 bits,
which every supported command satisfies), and consequently the XOR of all
bytes of any emitted frame is zero. -/
theorem c1_send_frame (cmd : Nat) (data : Option (List Nat)) (st : V2State)
    (d : Serial) (h : st.device = some d) :
    sendCommand cmd data st =
      (true, { st with
               device := some { d with
                 written := d.written ++ v2Frame (incSequenceNumb st.sequenceNumber) cmd data },
               sequenceNumber := incSequenceNumb st.sequenceNumber }) ∧
    (∀ seq, v2Frame seq cmd data =
      ([0x1B, seq, (((data.getD []).length + 1) >>> 8) &&& 0xFF,
        ((data.getD []).length + 1) &&& 0xFF, 0x0E, cmd] ++ data.getD []) ++
      [([0x1B, seq, (((data.getD []).length + 1) >>> 8) &&& 0xFF,
         ((data.getD []).length + 1) &&& 0xFF, 0x0E, cmd] ++ data.getD []).foldl Nat.xor 0]) ∧
    ((data.getD []).length + 1 ≤ 0xFFFF →
      ((((data.getD []).length + 1) >>> 8) &&& 0xFF) * 0x100 +
        (((data.getD []).length + 1) &&& 0xFF) = (data.getD []).length + 1) ∧
    (∀ seq, (v2Frame seq cmd data).foldl Nat.xor 0 = 0) := by
  refine ⟨?_, ?_, ?_, ?_⟩
  · simp [sendCommand, h, Serial.write]
  · intro seq
    cases data <;> rfl
  · intro hle
    rw [Nat.shiftRight_eq_div_pow, and255, and255]
    norm_num
    omega
  · intro seq
    cases data <;> exact xorFoldAppendSelf _

/-- Claim C1 witness: a concrete `SIGN_ON` send. -/
theorem c1_witness :
    sendCommand 0x01 none (⟨some ⟨1000, [], []⟩, initSession, [], 0⟩ : V2State) =
      (true, ⟨some ⟨1000, [], v2Frame 1 0x01 none⟩, initSession, [], 1⟩) ∧
    (v2Frame 1 0x01 none).foldl Nat.xor 0 = 0 := by
  have h := c1_send_frame 0x01 none ⟨some ⟨1000, [], []⟩, initSession, [], 0⟩ ⟨1000, [], []⟩ rfl
  exact ⟨h.1, h.2.2.2 1⟩

/-- Claim C3 (amended): the sequence number starts at 0 and is incremented
modulo 256 before every outbound frame, so frame `n + 1` carries
`(n + 1) % 256`: the first frame carries 1, frame 256 carries 0 and frame
257 carries 1 again.  The claim's formula `seq = n mod 256` for the frame
following `n` sent frames is off by one. -/
theorem c3_sequence :
    seqAfterFrames 0 = 0 ∧
    (∀ n, seqAfterFrames (n + 1) = (n + 1) % 256) ∧
    seqAfterFrames 1 = 1 ∧ seqAfterFrames 256 = 0 ∧ seqAfterFrames 257 = 1 ∧
    (∀ (st : V2State) (d : Serial) (cmd : Nat) (data : Option (List Nat)),
      st.device = some d →
      (sendCommand cmd data st).2.sequenceNumber = incSequenceNumb st.sequenceNumber ∧
      (v2Frame (incSequenceNumb st.sequenceNumber) cmd data).getD 1 0 =
        incSequenceNumb st.sequenceNumber) := by
  refine ⟨rfl, fun n => seqAfterFrames_mod (n + 1), rfl, ?_, ?_, ?_⟩
  · rw [seqAfterFrames_mod]
  · rw [seqAfterFrames_mod]
  · intro st d cmd data h
    constructor
    · simp [sendCommand, h]
    · cases data <;> rfl

/-- Claim C3 witness: first outbound frame of a fresh session. -/
theorem c3_witness :
    (sendCommand 0x01 none (⟨some ⟨1000, [], []⟩, initSession, [], 0⟩ : V2State)).2.sequenceNumber = 1 :=
  ((c3_sequence.2.2.2.2.2) ⟨some ⟨1000, [], []⟩, initSession, [], 0⟩ ⟨1000, [], []⟩ 0x01 none rfl).1

/-- Claim C3 counterexample: with `n = 0` the claim's formula says the next
(first) outbound frame carries `0 mod 256 = 0`, but the code sends sequence
number 1 on the first frame. -/
theorem c3_counter :
    seqAfterFrames (0 + 1) = 1 ∧ seqAfterFrames (0 + 1) ≠ 0 % 256 := by
  decide

/-- Claim C4: for flash operations the caller's byte address is halved at
the wire boundary — v1 `_set_address` sends the 16-bit word address
little-endian after `ord('U')`, v2 `_load_address` sends the 32-bit word
address big-endian with bit `0x80` forced onto the most significant byte —
while a v1 EEPROM address goes out unchanged. -/
theorem c4_address (a : Nat) :
    (a < 0x20000 →
      setAddressCmd a true = [0x55, a / 2 % 0x100, a / 2 / 0x100, 0x20] ∧
      a / 2 % 0x100 + 0x100 * (a / 2 / 0x100) = a / 2) ∧
    (a < 0x10000 →
      setAddressCmd a false = [0x55, a % 0x100, a / 0x100, 0x20] ∧
      a % 0x100 + 0x100 * (a / 0x100) = a) ∧
    (a < 0x100000000 →
      loadAddressMsg a true =
        [a / 2 / 0x1000000 + 0x80, a / 2 / 0x10000 % 0x100,
         a / 2 / 0x100 % 0x100, a / 2 % 0x100] ∧
      a / 2 / 0x1000000 < 0x80 ∧
      a / 2 / 0x1000000 * 0x1000000 + a / 2 / 0x10000 % 0x100 * 0x10000 +
        a / 2 / 0x100 % 0x100 * 0x100 + a / 2 % 0x100 = a / 2) := by
  have e8 : (2 : Nat) ^ 8 = 0x100 := by norm_num
  have e16 : (2 : Nat) ^ 16 = 0x10000 := by norm_num
  have e24 : (2 : Nat) ^ 24 = 0x1000000 := by norm_num
  refine ⟨?_, ?_, ?_⟩
  · intro h
    have h1 : a / 2 &&& 0xFF = a / 2 % 0x100 := and255 _
    have h2 : ((a / 2) >>> 8) &&& 0xFF = a / 2 / 0x100 := by
      rw [Nat.shiftRight_eq_div_pow, and255, e8]
      omega
    refine ⟨?_, by omega⟩
    simp [setAddressCmd, h1, h2]
  · intro h
    have h1 : a &&& 0xFF = a % 0x100 := and255 _
    have h2 : (a >>> 8) &&& 0xFF = a / 0x100 := by
      rw [Nat.shiftRight_eq_div_pow, and255, e8]
      omega
    refine ⟨?_, by omega⟩
    simp [setAddressCmd, h1, h2]
  · intro h
    have hm0 : (((a / 2) >>> 24) &&& 0xFF) ||| 0x80 = a / 2 / 0x1000000 + 0x80 := by
      rw [Nat.shiftRight_eq_div_pow, and255, e24]
      have hlt : a / 2 / 0x1000000 < 128 := by omega
      rw [Nat.mod_eq_of_lt (by omega)]
      exact or128 _ hlt
    have hm1 : ((a / 2) >>> 16) &&& 0xFF = a / 2 / 0x10000 % 0x100 := by
      rw [Nat.shiftRight_eq_div_pow, and255, e16]
    have hm2 : ((a / 2) >>> 8) &&& 0xFF = a / 2 / 0x100 % 0x100 := by
      rw [Nat.shiftRight_eq_div_pow, and255, e8]
    have hm3 : a / 2 &&& 0xFF = a / 2 % 0x100 := and255 _
    refine ⟨?_, by omega, by omega⟩
    simp [loadAddressMsg, hm0, hm1, hm2, hm3]

/-- Claim C4 witness: byte address `0x1234`, matching the worked example of
the specification (`0x1234 / 2 = 0x091A`). -/
theorem c4_witness :
    setAddressCmd 0x1234 true = [0x55, 0x1A, 0x09, 0x20] ∧
    setAddressCmd 0x1234 false = [0x55, 0x34, 0x12, 0x20] ∧
    loadAddressMsg 0x1234 true = [0x80, 0x00, 0x09, 0x1A] := by
  have h := c4_address 0x1234
  exact ⟨(h.1 (by norm_num)).1, (h.2.1 (by norm_num)).1, (h.2.2 (by norm_num)).1⟩

/-- Claim C5: every signature key of the registry stores exactly the
tabulated name, flash page size in bytes and page count and reports
success; any other signature reports failure, stores the formatted hex
string of the signature as the cpu name and zeroes both sizes (flashing is
then blocked because the page size is zero). -/
theorem c5_registry :
    (∀ e, e ∈ AVR_ATMEL_CPUS → ∀ sess : Session,
      isCpuSignature e.1 sess =
        (true, { sess with cpuName := e.2.1, cpuPageSize := e.2.2.1,
                           cpuPages := e.2.2.2 })) ∧
    (∀ (signature : Nat) (sess : Session),
      signature ∉ AVR_ATMEL_CPUS.map (fun e => e.1) →
      isCpuSignature signature sess =
        (false, { sess with cpuName := "signature: " ++ hex06 signature,
                            cpuPageSize := 0, cpuPages := 0 })) ∧
    (∀ sess : Session,
      isCpuSignature 0x1E950F sess =
        (true, { sess with cpuName := "ATmega328P", cpuPageSize := 128,
                           cpuPages := 256 }) ∧
      isCpuSignature 0x1E9801 sess =
        (true, { sess with cpuName := "ATmega2560", cpuPageSize := 256,
                           cpuPages := 1024 })) := by
  refine ⟨?_, ?_, fun sess => ⟨rfl, rfl⟩⟩
  · intro e he sess
    fin_cases he <;> rfl
  · intro signature sess hnot
    have hfind : AVR_ATMEL_CPUS.find? (fun e => e.1 == signature) = none := by
      apply List.find?_eq_none.2
      intro x hx
      simp only [beq_iff_eq]
      intro heq
      exact hnot (heq ▸ List.mem_map_of_mem (fun e => e.1) hx)
    simp [isCpuSignature, hfind]

/-- Claim C5 witness: the tabulated ATmega328P entry and the unknown
signature `0xDEADBE`. -/
theorem c5_witness :
    isCpuSignature 0x1E950F initSession =
      (true, { initSession with cpuName := "ATmega328P", cpuPageSize := 128,
                                cpuPages := 256 }) ∧
    isCpuSignature 0xDEADBE initSession =
      (false, { initSession with cpuName := "signature: deadbe",
                                 cpuPageSize := 0, cpuPages := 0 }) := by
  refine ⟨c5_registry.1 (0x1E950F, "ATmega328P", 128, 256) (by decide) initSession, ?_⟩
  have h := c5_registry.2.1 0xDEADBE initSession (by decide)
  exact h

/-- Input for claim C6: four sync attempts consume the eight noise bytes,
and a fifth attempt would read the valid `0x14 0x10` reply. -/
def syncBugState : V1State :=
  ⟨some ⟨1000, [0, 0, 0, 0, 0, 0, 0, 0, 0x14, 0x10], []⟩, initSession, []⟩

/-- Claim C6 (code bug): `get_sync` lowers the timeout to 500 ms and runs
its loop over `range(1, 5)`, i.e. only four attempts, although both its own
docstring and the claim say five.  On this line state the fifth attempt
would observe `0x14 0x10` and succeed, but the code returns failure. -/
theorem c6_sync_eval :
    v1GetSync syncBugState = Except.ok (getSyncLoop 4 (setTimeout 500 syncBugState)) ∧
    (getSyncLoop 4 (setTimeout 500 syncBugState)).1 = false ∧
    (getSyncLoop 5 (setTimeout 500 syncBugState)).1 = true := by
  exact ⟨rfl, by decide, by decide⟩

/-- Input for claim C7 on the v1 side: parameter replies carry hardware
version 1, software major 4, software minor 5, then the bare Optiboot
sign-on reply. -/
def boardBugV1State : V1State :=
  ⟨some ⟨1000, [0x14, 1, 0x10, 0x14, 4, 0x10, 0x14, 5, 0x10, 0x14, 0x10], []⟩,
   initSession, []⟩

/-- Input for claim C7 on the v2 side: three `GET_PARAMETER` replies with
values 1 (hardware), 4 (software major) and 5 (software minor). -/
def boardBugV2State : V2State :=
  ⟨some ⟨1000, v2Frame 1 0x03 (some [0, 1]) ++ v2Frame 2 0x03 (some [0, 4]) ++
               v2Frame 3 0x03 (some [0, 5]), []⟩,
   initSession, [], 0⟩

/-- Claim C7 (code bug): in both programmers `board_request` stores the
software-major reply into `_hw_version` (overwriting the hardware version)
and never writes `_sw_major`.  With hardware version 1, software major 4
and software minor 5 on the wire, the session ends with `hw_version = 4`,
`sw_major = 0` and `sw_minor = 5` instead of the claimed 1, 4, 5. -/
theorem c7_board_request_eval :
    (v1BoardRequest boardBugV1State).1 = true ∧
    (v1BoardRequest boardBugV1State).2.sess.hwVersion = 4 ∧
    (v1BoardRequest boardBugV1State).2.sess.swMajor = 0 ∧
    (v1BoardRequest boardBugV1State).2.sess.swMinor = 5 ∧
    (v2BoardRequest boardBugV2State).1 = true ∧
    (v2BoardRequest boardBugV2State).2.sess.hwVersion = 4 ∧
    (v2BoardRequest boardBugV2State).2.sess.swMajor = 0 ∧
    (v2BoardRequest boardBugV2State).2.sess.swMinor = 5 := by
  refine ⟨by decide, by decide, by decide, by decide, by decide, by decide,
    by decide, by decide⟩

/-- Claim C10 (amended): with an unopened device every modelled programmer
operation other than `Stk500v1.get_sync` fails fast with `False` (or `None`
for the memory reads) and leaves the state untouched, because
`_cmd_request_no_len` and `_send_command` check the device first;
`Stk500v1.get_sync` instead raises `AttributeError`, because it assigns the
device timeout before any check. -/
theorem c10_no_device (st1 : V1State) (st2 : V2State)
    (h1 : st1.device = none) (h2 : st2.device = none)
    (buffer : List Nat) (address count : Nat) (flash : Bool) :
    v1GetSync st1 = .error .attrError ∧
    v1BoardRequest st1 = (false, st1) ∧
    v1CpuSignature st1 = (false, st1) ∧
    v1WriteMemory buffer address flash st1 = (false, st1) ∧
    v1ReadMemory address count flash st1 = (none, st1) ∧
    v1LeaveBootloader st1 = (false, st1) ∧
    v2GetSync st2 = (false, st2) ∧
    v2BoardRequest st2 = (false, st2) ∧
    v2CpuSignature st2 = (false, st2) ∧
    v2WriteMemory buffer address flash st2 = (false, st2) ∧
    v2ReadMemory address count flash st2 = (none, st2) ∧
    v2LeaveBootloader st2 = (false, st2) := by
  obtain ⟨dev1, sess1, ans1⟩ := st1
  obtain ⟨dev2, sess2, ans2, seq2⟩ := st2
  cases h1
  cases h2
  refine ⟨rfl, rfl, rfl, rfl, rfl, rfl, rfl, rfl, rfl, rfl, rfl, rfl⟩

/-- Claim C10 witness: a fresh unopened session. -/
theorem c10_witness :
    v1BoardRequest ⟨none, initSession, []⟩ = (false, ⟨none, initSession, []⟩) ∧
    v2ReadMemory 0 128 true ⟨none, initSession, [], 0⟩ =
      (none, ⟨none, initSession, [], 0⟩) := by
  have h := c10_no_device ⟨none, initSession, []⟩ ⟨none, initSession, [], 0⟩
    rfl rfl [] 0 128 true
  exact ⟨h.2.1, h.2.2.2.2.2.2.2.2.2.2.1⟩

/-- Claim C10 counterexample: the claim says every operation returns a
failure value rather than raising, but `Stk500v1.get_sync` on an unopened
session raises `AttributeError` (it sets `self._ab.device.timeout` before
any device check) and in particular returns no value at all. -/
theorem c10_counter :
    v1GetSync ⟨none, initSession, []⟩ = Except.error PyErr.attrError ∧
    ∀ r : Bool × V1State, v1GetSync ⟨none, initSession, []⟩ ≠ Except.ok r := by
  exact ⟨rfl, fun r h => by cases h⟩

/-- Behaviour of `_cmd_request_no_len` on an open device: the answer is
whatever the line delivers (up to `n` bytes) and acceptance is exactly the
two-sentinel check. -/
theorem cmdRequestNoLen_some (msg : List Nat) (n : Nat) (st : V1State)
    (d : Serial) (h : st.device = some d) :
    cmdRequestNoLen msg n st =
      (decide (2 ≤ (d.stream.take n).length ∧ (d.stream.take n).headD 0 = 0x14 ∧
        (d.stream.take n).getLastD 0 = 0x10),
       { st with
         device := some { d with
                          written := d.written ++ msg,
                          stream := d.stream.drop n },
         answer := d.stream.take n }) := by
  simp only [cmdRequestNoLen, h, Serial.write, Serial.read]
  split
  · next hc => rw [decide_eq_true hc]
  · next hc => rw [decide_eq_false hc]

/-- Claim C8: the v1 `GET_SIGN_ON` exchange accepts any reply of at least
two bytes sentinelled by `0x14 ... 0x10` (reading at most its seven-byte
upper bound and never requiring an exact length); the bytes strictly
between the sentinels become the programmer name, which is empty for the
bare Optiboot reply `0x14 0x10`. -/
theorem c8_sign_on (st : V1State) (d : Serial) (h : st.device = some d) :
    (2 ≤ (d.stream.take 7).length →
      (d.stream.take 7).headD 0 = 0x14 →
      (d.stream.take 7).getLastD 0 = 0x10 →
      (signOnRequest st).1 = true ∧
      (signOnRequest st).2.sess.programmerName =
        ((d.stream.take 7).dropLast).drop 1) ∧
    (d.stream = [0x14, 0x10] →
      (signOnRequest st).1 = true ∧
      (signOnRequest st).2.sess.programmerName = []) := by
  constructor
  · intro hlen hhead hlast
    have heq := cmdRequestNoLen_some [0x31, 0x20] 7 st d h
    rw [decide_eq_true ⟨hlen, hhead, hlast⟩] at heq
    refine ⟨?_, ?_⟩ <;> simp [signOnRequest, heq]
  · intro hs
    have heq := cmdRequestNoLen_some [0x31, 0x20] 7 st d h
    have hc : 2 ≤ (d.stream.take 7).length ∧ (d.stream.take 7).headD 0 = 0x14 ∧
        (d.stream.take 7).getLastD 0 = 0x10 := by
      rw [hs]
      decide
    rw [decide_eq_true hc] at heq
    refine ⟨?_, ?_⟩ <;> simp [signOnRequest, heq, hs]

/-- Claim C8 witness: a three-byte programmer name and the bare Optiboot
reply. -/
theorem c8_witness :
    (signOnRequest ⟨some ⟨1000, [0x14, 0x41, 0x56, 0x52, 0x10], []⟩, initSession, []⟩).1 = true ∧
    (signOnRequest ⟨some ⟨1000, [0x14, 0x41, 0x56, 0x52, 0x10], []⟩, initSession, []⟩).2.sess.programmerName =
      [0x41, 0x56, 0x52] ∧
    (signOnRequest ⟨some ⟨1000, [0x14, 0x10], []⟩, initSession, []⟩).2.sess.programmerName = [] := by
  have h1 := (c8_sign_on ⟨some ⟨1000, [0x14, 0x41, 0x56, 0x52, 0x10], []⟩, initSession, []⟩
    ⟨1000, [0x14, 0x41, 0x56, 0x52, 0x10], []⟩ rfl).1 (by decide) (by decide) (by decide)
  have h2 := (c8_sign_on ⟨some ⟨1000, [0x14, 0x10], []⟩, initSession, []⟩
    ⟨1000, [0x14, 0x10], []⟩ rfl).2 rfl
  exact ⟨h1.1, h1.2, h2.2⟩

/-- A successful header scan yields a four-byte trailer carrying the
expected sequence number and `TOKEN`, preceded on the wire by discarded
noise and the `MESSAGE_START` byte. -/
theorem readHeadearAux_some {seq : Nat} :
    ∀ {fuel : Nat} {d d2 : Serial} {head : List Nat},
    readHeadearAux seq fuel d = (some head, d2) →
    head.length = 4 ∧ head.getD 0 0 = seq ∧ head.getD 3 0 = 0x0E ∧
    ∃ pre, d.stream = pre ++ 0x1B :: (head ++ d2.stream) := by
  intro fuel
  induction fuel with
  | zero =>
      intro d d2 head h
      exact absurd h (by simp [readHeadearAux])
  | succ fuel ih =>
      intro d d2 head h
      rw [readHeadearAux] at h
      simp only [Serial.read] at h
      split at h
      · next hstart =>
          cases hds : d.stream with
          | nil =>
              rw [hds] at hstart
              simp at hstart
          | cons b t =>
              rw [hds] at hstart h
              have hb : b = 0x1B := by simpa using hstart.2
              subst hb
              simp only [List.drop_succ_cons, List.drop_zero] at h
              split at h
              · next hcond =>
                  obtain ⟨h1, h2⟩ := Prod.mk.injEq .. |>.mp h
                  obtain rfl : t.take 4 = head := by simpa using h1
                  refine ⟨hcond.1, hcond.2.2.symm, hcond.2.1, [], ?_⟩
                  have h2s : d2.stream = t.drop 4 := by
                    rw [← h2]
                  rw [h2s]
                  simp [List.take_append_drop]
              · next hcond =>
                  obtain ⟨hl, hseq, htok, pre, hdec⟩ := ih h
                  simp only at hdec
                  refine ⟨hl, hseq, htok, 0x1B :: (t.take 4 ++ pre), ?_⟩
                  conv_lhs => rw [← List.take_append_drop 4 t, hdec]
                  simp [List.append_assoc]
      · next hstart =>
          obtain ⟨hl, hseq, htok, pre, hdec⟩ := ih h
          simp only at hdec
          cases hds : d.stream with
          | nil =>
              rw [hds] at hdec
              simp at hdec
          | cons b t =>
              rw [hds] at hdec
              simp only [List.drop_succ_cons, List.drop_zero] at hdec
              refine ⟨hl, hseq, htok, b :: pre, ?_⟩
              rw [hdec]
              simp

/-- If none of the first `fuel` bytes on the line is `MESSAGE_START`, the
header scan with `fuel` iterations fails. -/
theorem readHeadearAux_none {seq : Nat} :
    ∀ {fuel : Nat} {d : Serial},
    (∀ b ∈ d.stream.take fuel, b ≠ 0x1B) →
    (readHeadearAux seq fuel d).1 = none := by
  intro fuel
  induction fuel with
  | zero => intro d _; rfl
  | succ fuel ih =>
      intro d hnb
      rw [readHeadearAux]
      simp only [Serial.read]
      split
      · next hstart =>
          exfalso
          cases hds : d.stream with
          | nil =>
              rw [hds] at hstart
              simp at hstart
          | cons b t =>
              rw [hds] at hstart
              have hb : b = 0x1B := by simpa using hstart.2
              refine hnb b ?_ hb
              rw [hds, List.take_succ_cons]
              exact List.mem_cons_self b _
      · next hstart =>
          apply ih
          intro b hb
          apply hnb
          cases hds : d.stream with
          | nil =>
              rw [hds] at hb
              simp at hb
          | cons c t =>
              rw [hds] at hb
              simp only [List.drop_succ_cons, List.drop_zero] at hb
              rw [List.take_succ_cons]
              exact List.mem_cons_of_mem _ hb

/-- Header returned by a successful scan (empty placeholder on failure). -/
def scanHead (seq : Nat) (d : Serial) : List Nat := (readHeadear seq d).1.getD []

/-- Line content left after the header scan. -/
def scanRest (seq : Nat) (d : Serial) : List Nat := (readHeadear seq d).2.stream

/-- Payload byte count read by `_recv_answer`: the length field of the
header plus one for the checksum byte not counted in `len`. -/
def scanLenData (seq : Nat) (d : Serial) : Nat :=
  (((scanHead seq d).getD 1 0) <<< 8 ||| (scanHead seq d).getD 2 0) + 1

/-- Payload bytes subsequently read by `_recv_answer`. -/
def scanPayload (seq : Nat) (d : Serial) : List Nat :=
  (scanRest seq d).take (scanLenData seq d)

/-- Claim C2 (amended): a v2 reply is accepted only if the header scan
succeeded — its four trailer bytes carrying the request's sequence number
and `TOKEN`, preceded on the wire by `MESSAGE_START` — and exactly
`len + 1` payload bytes were read whose first byte is the answered command
id, whose second byte is `STATUS_CMD_OK`, and whose XOR checksum over
header plus payload-minus-checksum matches the transmitted checksum byte.
A non-`MESSAGE_START` byte is discarded and the scan retries, but only up
to nine times (`range(1, 10)`), not the ten the claim states. -/
theorem c2_recv_accept (cmd : Nat) (st : V2State) (d : Serial)
    (h : st.device = some d) :
    ((recvAnswer cmd st).1 = true →
      (readHeadear st.sequenceNumber d).1 = some (scanHead st.sequenceNumber d) ∧
      (scanHead st.sequenceNumber d).length = 4 ∧
      (scanHead st.sequenceNumber d).getD 0 0 = st.sequenceNumber ∧
      (scanHead st.sequenceNumber d).getD 3 0 = 0x0E ∧
      (∃ pre, d.stream = pre ++ 0x1B ::
        (scanHead st.sequenceNumber d ++ scanRest st.sequenceNumber d)) ∧
      3 ≤ scanLenData st.sequenceNumber d ∧
      (scanPayload st.sequenceNumber d).length = scanLenData st.sequenceNumber d ∧
      (scanPayload st.sequenceNumber d).getD 0 0 = cmd ∧
      (scanPayload st.sequenceNumber d).getD 1 0 = 0 ∧
      (scanHead st.sequenceNumber d ++ (scanPayload st.sequenceNumber d).dropLast).foldl
          Nat.xor 0x1B = (scanPayload st.sequenceNumber d).getLastD 0) ∧
    ((∀ b ∈ d.stream.take 9, b ≠ 0x1B) → (recvAnswer cmd st).1 = false) := by
  constructor
  · intro ht
    simp only [recvAnswer, h] at ht
    split at ht
    · simp at ht
    · next head d1 heq =>
        have heqA : readHeadearAux st.sequenceNumber 9 d = (some head, d1) := heq
        obtain ⟨hl, hseq, htok, pre, hdec⟩ := readHeadearAux_some heqA
        split at ht
        · next hlen =>
            split at ht
            · next hcond =>
                simp only [Serial.read] at ht hcond
                simp only [beq_iff_eq] at ht
                simp only [scanPayload, scanLenData, scanRest, scanHead, heq,
                  Option.getD_some, Serial.read]
                exact ⟨trivial, hl, hseq, htok, ⟨pre, hdec⟩, hlen, hcond.1, hcond.2.1,
                  hcond.2.2, ht⟩
            · next hcond => simp at ht
        · next hlen => simp at ht
  · intro hnb
    have hnone : (readHeadear st.sequenceNumber d).1 = none := readHeadearAux_none hnb
    simp only [recvAnswer, h]
    split
    · simp
    · next head d1 heq =>
        rw [heq] at hnone
        simp at hnone

/-- Claim C2 witness: a well-formed `GET_PARAMETER` reply is accepted and
its parsed pieces satisfy the stated conditions. -/
theorem c2_witness :
    (recvAnswer 0x03 ⟨some ⟨1000, v2Frame 1 0x03 (some [0, 7]), []⟩,
      initSession, [], 1⟩).1 = true ∧
    (scanPayload 1 ⟨1000, v2Frame 1 0x03 (some [0, 7]), []⟩).getD 0 0 = 0x03 ∧
    (scanPayload 1 ⟨1000, v2Frame 1 0x03 (some [0, 7]), []⟩).length =
      scanLenData 1 ⟨1000, v2Frame 1 0x03 (some [0, 7]), []⟩ ∧
    (scanHead 1 ⟨1000, v2Frame 1 0x03 (some [0, 7]), []⟩).getD 0 0 = 1 := by
  have hc := (c2_recv_accept 0x03 ⟨some ⟨1000, v2Frame 1 0x03 (some [0, 7]), []⟩,
    initSession, [], 1⟩ ⟨1000, v2Frame 1 0x03 (some [0, 7]), []⟩ rfl).1 (by decide)
  exact ⟨by decide, hc.2.2.2.2.2.2.2.1, hc.2.2.2.2.2.2.1, hc.2.2.1⟩

/-- Claim C2 counterexample: after nine noise bytes a valid frame follows;
a ten-iteration scan (as the claim describes) would find the header, but
the source's `range(1, 10)` loop performs only nine reads, so the reply is
rejected. -/
theorem c2_counter :
    ((readHeadearAux 1 10 ⟨1000, [0, 0, 0, 0, 0, 0, 0, 0, 0] ++
        v2Frame 1 0x03 (some [0, 7]), []⟩).1).isSome = true ∧
    (readHeadearAux 1 9 ⟨1000, [0, 0, 0, 0, 0, 0, 0, 0, 0] ++
        v2Frame 1 0x03 (some [0, 7]), []⟩).1 = none ∧
    (recvAnswer 0x03 ⟨some ⟨1000, [0, 0, 0, 0, 0, 0, 0, 0, 0] ++
        v2Frame 1 0x03 (some [0, 7]), []⟩, initSession, [], 1⟩).1 = false := by
  exact ⟨by decide, by decide, by decide⟩

/-- Characterization of the fuelled range iteration: with enough fuel it
produces `addr, addr + step, ...` with `ceil((stop - addr) / step)`
entries. -/
theorem pyRangeAux_eq (stop step : Nat) (hstep : 0 < step) :
    ∀ fuel addr, stop ≤ addr + fuel →
      pyRangeAux stop step fuel addr =
        (List.range ((stop - addr + step - 1) / step)).map (fun i => addr + i * step) := by
  intro fuel
  induction fuel with
  | zero =>
      intro addr hle
      have h0 : stop - addr = 0 := by omega
      rw [pyRangeAux, h0]
      have hc : (0 + step - 1) / step = 0 := Nat.div_eq_of_lt (by omega)
      rw [hc]
      rfl
  | succ fuel ih =>
      intro addr hle
      rw [pyRangeAux]
      by_cases hlt : addr < stop
      · rw [if_pos hlt]
        rw [ih (addr + step) (by omega)]
        have hcount : (stop - addr + step - 1) / step =
            (stop - (addr + step) + step - 1) / step + 1 := by
          rcases le_or_lt (stop - addr) step with hle2 | hlt2
          · have h1 : stop - (addr + step) = 0 := by omega
            rw [h1]
            have h2 : (0 + step - 1) / step = 0 := Nat.div_eq_of_lt (by omega)
            rw [h2]
            have h3 : stop - addr + step - 1 = (stop - addr - 1) + step := by omega
            rw [h3, Nat.add_div_right _ hstep]
            have h4 : (stop - addr - 1) / step = 0 := Nat.div_eq_of_lt (by omega)
            omega
          · have h3 : stop - addr + step - 1 = (stop - addr - 1) + step := by omega
            have h5 : stop - (addr + step) + step - 1 = (stop - addr - 1 - step) + step := by
              omega
            rw [h3, h5, Nat.add_div_right _ hstep, Nat.add_div_right _ hstep]
            have h6 : stop - addr - 1 = (stop - addr - 1 - step) + step := by omega
            rw [h6, Nat.add_div_right _ hstep]
            have h7 : stop - addr - 1 - step + step - step = stop - addr - 1 - step := by
              omega
            rw [h7]
        rw [hcount, List.range_succ_eq_map]
        simp only [List.map_cons, List.map_map]
        congr 1
        · omega
        · apply List.map_congr_left
          intro i _
          simp only [Function.comp_apply]
          rw [Nat.succ_mul]
          ring
      · rw [if_neg hlt]
        have h0 : stop - addr = 0 := by omega
        rw [h0]
        have hc : (0 + step - 1) / step = 0 := Nat.div_eq_of_lt (by omega)
        rw [hc]
        rfl

/-- Python `range(0, stop, step)` enumerates `i * step` for
`i < ceil(stop / step)`. -/
theorem pyRange_eq (stop step : Nat) (hstep : 0 < step) :
    pyRange stop step =
      (List.range ((stop + step - 1) / step)).map (fun i => i * step) := by
  rw [pyRange, pyRangeAux_eq stop step hstep stop 0 (by omega)]
  simp

/-- The verify loop succeeds exactly when every page matches, reads every
scheduled page when it succeeds, and otherwise stops at the first
mismatching page. -/
theorem verifyRun_spec (image target : Nat → Nat) (p : Nat) :
    ∀ l : List Nat,
      ((verifyRun image target p l).2 = none ↔
        ∀ a ∈ l, tobinarray target a p = tobinarray image a p) ∧
      ((verifyRun image target p l).2 = none → (verifyRun image target p l).1 = l) ∧
      (∀ a, (verifyRun image target p l).2 = some a →
        a ∈ l ∧ tobinarray target a p ≠ tobinarray image a p) := by
  intro l
  induction l with
  | nil => simp [verifyRun]
  | cons x rest ih =>
      rw [verifyRun]
      by_cases hx : tobinarray target x p = tobinarray image x p
      · rw [if_pos hx]
        refine ⟨⟨?_, ?_⟩, ?_, ?_⟩
        · intro h2 a ha
          rcases List.mem_cons.mp ha with rfl | ha2
          · exact hx
          · exact (ih.1.mp h2) a ha2
        · intro hall
          exact ih.1.mpr (fun a ha => hall a (List.mem_cons_of_mem _ ha))
        · intro h2
          have := ih.2.1 h2
          simp [this]
        · intro a h2
          have := ih.2.2 a h2
          exact ⟨List.mem_cons_of_mem _ this.1, this.2⟩
      · rw [if_neg hx]
        refine ⟨⟨fun h2 => absurd h2 (by simp),
          fun hall => absurd (hall x (List.mem_cons_self x rest)) hx⟩,
          fun h2 => absurd h2 (by simp), ?_⟩
        intro a h2
        have hax : a = x := by
          have := h2
          simp at this
          omega
        subst hax
        exact ⟨List.mem_cons_self _ _, hx⟩

/-- Claim C9: for an image with `max_addr = N` and a positive page size
`p`, the update pipeline performs exactly `ceil(N / p)` write calls at byte
addresses `0, p, 2p, ...`, each carrying the `p`-byte zero-filled slice of
the image at that address; the verify pass reads the same pages (all
`ceil(N / p)` of them when everything matches) and aborts at the first
page whose read-back differs from the image slice. -/
theorem c9_pipeline (image target : Nat → Nat) (maxAddr pageSize : Nat)
    (hp : 0 < pageSize) :
    (writeCalls image maxAddr pageSize).length = (maxAddr + pageSize - 1) / pageSize ∧
    (∀ i, i < (writeCalls image maxAddr pageSize).length →
      (writeCalls image maxAddr pageSize).getD i (0, []) =
        (i * pageSize, tobinarray image (i * pageSize) pageSize)) ∧
    (∀ a buf, (a, buf) ∈ writeCalls image maxAddr pageSize → buf.length = pageSize) ∧
    ((verifyRun image target pageSize (pyRange maxAddr pageSize)).2 = none ↔
      ∀ a ∈ pyRange maxAddr pageSize,
        tobinarray target a pageSize = tobinarray image a pageSize) ∧
    ((verifyRun image target pageSize (pyRange maxAddr pageSize)).2 = none →
      (verifyRun image target pageSize (pyRange maxAddr pageSize)).1 =
        pyRange maxAddr pageSize ∧
      (verifyRun image target pageSize (pyRange maxAddr pageSize)).1.length =
        (maxAddr + pageSize - 1) / pageSize) ∧
    (∀ a, (verifyRun image target pageSize (pyRange maxAddr pageSize)).2 = some a →
      a ∈ pyRange maxAddr pageSize ∧
      tobinarray target a pageSize ≠ tobinarray image a pageSize) := by
  have hpr := pyRange_eq maxAddr pageSize hp
  have hvs := verifyRun_spec image target pageSize (pyRange maxAddr pageSize)
  refine ⟨?_, ?_, ?_, hvs.1, ?_, hvs.2.2⟩
  · rw [writeCalls, hpr]
    simp
  · intro i hi
    rw [writeCalls, hpr] at hi ⊢
    rw [List.map_map] at hi ⊢
    have hi' : i < ((maxAddr + pageSize - 1) / pageSize) := by simpa using hi
    rw [List.getD_eq_getElem _ _ (by simpa using hi)]
    simp [List.getElem_map, List.getElem_range, Function.comp]
  · intro a buf hmem
    rw [writeCalls] at hmem
    simp only [List.mem_map] at hmem
    obtain ⟨x, hx, heq⟩ := hmem
    cases heq
    simp [tobinarray]
  · intro hnone
    have h1 := hvs.2.1 hnone
    refine ⟨h1, ?_⟩
    rw [h1, hpr]
    simp

/-- Claim C9 witness: a five-byte image with two-byte pages gives three
pages and a clean verify on an identical target. -/
theorem c9_witness :
    (writeCalls (fun i => i % 7) 5 2).length = 3 ∧
    (writeCalls (fun i => i % 7) 5 2).getD 1 (0, []) = (2, [2, 3]) ∧
    (verifyRun (fun i => i % 7) (fun i => i % 7) 2 (pyRange 5 2)).2 = none := by
  have h := c9_pipeline (fun i => i % 7) (fun i => i % 7) 5 2 (by decide)
  refine ⟨h.1, ?_, ?_⟩
  · have h2 := h.2.1 1 (by decide)
    exact h2
  · exact h.2.2.2.1.mpr (fun a _ => rfl)
